import Mathlib

/-!
# The kitty router (`router.go`) over `net/http.ServeMux`

`router.go` defines the `Router` interface, the functional option
`NotFoundHandler`, `Server.Router`, and `stdlibRouter`, a `Router` that wraps
the standard library's `http.ServeMux` and puts a method filter in front of
every registered handler.

The file is organised as follows.

* `gostrings`, `path`, `net`: the string helpers of the Go standard library
  that `ServeMux` uses (`strings.HasPrefix`, `path.Clean`, `net.SplitHostPort`).
* `http`: the request, the observable outcome of serving a request, and
  `ServeMux` with the matching rules of Go 1.12 to 1.21 (the rules every module
  that declares a Go version below 1.22 gets): `Handle` panics on an empty or
  an already registered pattern, an exact pattern wins over the longest
  registered pattern ending in `/` that is a leading part of the path, a path
  that is not in canonical form is answered by a redirect.
* `kitty`: the definitions of `router.go`.

Go strings are modelled by `String`; indexing a byte of a Go string is
modelled by indexing a character, which agrees on the bytes `/`, `.`, `:`,
`[`, `]` and `*` that the code inspects.  A Go panic is an explicit result:
`Except String` where nothing was mutated before the panic, a pair of the
state reached and the optional panic message where something may have been.
-/

namespace gostrings

/-- Go `strings.HasPrefix(s, p)`: `p` is a leading part of `s`. -/
def HasPrefix (s p : String) : Bool := p.data.isPrefixOf s.data

/-- Go `s[0] == c` for a string known to be non-empty (false on the empty string). -/
def firstIs (s : String) (c : Char) : Bool := s.data.head? == some c

/-- Go `s[len(s)-1] == c` for a string known to be non-empty (false on the empty string). -/
def lastIs (s : String) (c : Char) : Bool := s.data.getLast? == some c

/-- Go `strings.IndexByte(s, c)`: the first position of `c`, `none` for `-1`. -/
def IndexByte : List Char → Char → Option Nat
  | [], _ => none
  | x :: xs, c => if x = c then some 0 else (IndexByte xs c).map (· + 1)

/-- Go `strings.LastIndexByte(s, c)`: the last position of `c`, `none` for `-1`. -/
def LastIndexByte : List Char → Char → Option Nat
  | [], _ => none
  | x :: xs, c =>
    match LastIndexByte xs c with
    | some i => some (i + 1)
    | none => if x = c then some 0 else none

end gostrings

namespace path

/-- The three places the loop of `path.Clean` can be in: at the start of a
path element, inside a real path element that is being copied, and on the
second dot of a `..` element. -/
inductive Mode where
  | start
  | mid
  | skip
  deriving DecidableEq, Repr

/-- The backtracking loop of `path.Clean` on a `..` element,
`for out.w > dotdot && out.index(out.w) != '/' { out.w-- }`,
started after the first `out.w--`. -/
def backtrack (buf : List Char) (dotdot : Nat) : Nat → Nat
  | 0 => 0
  | w + 1 =>
    if w + 1 > dotdot ∧ buf.getD (w + 1) '/' ≠ '/' then backtrack buf dotdot w else w + 1

/-- The main loop of `path.Clean`, one character of the path at a time.
`out` is the written part of the buffer and `dotdot` the index where `..`
must stop. -/
def cleanLoop (rooted : Bool) : List Char → Mode → List Char → Nat → List Char
  | [], _, out, _ => out
  | _ :: rest, Mode.skip, out, dotdot => cleanLoop rooted rest Mode.start out dotdot
  | c :: rest, Mode.mid, out, dotdot =>
    if c = '/' then cleanLoop rooted rest Mode.start out dotdot
    else cleanLoop rooted rest Mode.mid (out ++ [c]) dotdot
  | c :: rest, Mode.start, out, dotdot =>
    if c = '/' then
      -- empty path element
      cleanLoop rooted rest Mode.start out dotdot
    else if c = '.' ∧ (rest = [] ∨ rest.head? = some '/') then
      -- . element
      cleanLoop rooted rest Mode.start out dotdot
    else if c = '.' ∧ rest.head? = some '.' ∧
        (rest.tail = [] ∨ rest.tail.head? = some '/') then
      -- .. element: remove to last /
      if out.length > dotdot then
        cleanLoop rooted rest Mode.skip (out.take (backtrack out dotdot (out.length - 1))) dotdot
      else if !rooted then
        let out1 := (if out.length > 0 then out ++ ['/'] else out) ++ ['.', '.']
        cleanLoop rooted rest Mode.skip out1 out1.length
      else
        cleanLoop rooted rest Mode.skip out dotdot
    else
      -- real path element: add slash if needed, then copy the element
      let out1 :=
        if (rooted ∧ out.length ≠ 1) ∨ (!rooted ∧ out.length ≠ 0) then out ++ ['/'] else out
      cleanLoop rooted rest Mode.mid (out1 ++ [c]) dotdot

/-- Go `path.Clean`: the shortest path name equivalent to `p` by purely
lexical processing. -/
def Clean (p : String) : String :=
  if p = "" then "."
  else
    let rooted := gostrings.firstIs p '/'
    let out :=
      if rooted then cleanLoop rooted p.data.tail Mode.start ['/'] 1
      else cleanLoop rooted p.data Mode.start [] 0
    if out = [] then "." else String.mk out

end path

namespace net

open gostrings

/-- Go `net.SplitHostPort`: splits `host:port`, `[host]:port`; `none` stands
for a returned error. -/
def SplitHostPort (hostport : String) : Option (String × String) :=
  let s := hostport.data
  match LastIndexByte s ':' with
  | none => none
  | some i =>
    if s.head? = some '[' then
      match IndexByte s ']' with
      | none => none
      | some close =>
        if close + 1 = s.length then none
        else if close + 1 = i then
          if (IndexByte (s.drop 1) '[').isSome then none
          else if (IndexByte (s.drop (close + 1)) ']').isSome then none
          else some (String.mk ((s.take close).drop 1), String.mk (s.drop (i + 1)))
        else none
    else
      let host := s.take i
      if (IndexByte host ':').isSome then none
      else if (IndexByte s '[').isSome then none
      else if (IndexByte s ']').isSome then none
      else some (String.mk host, String.mk (s.drop (i + 1)))

end net

namespace http

open gostrings

/-- The fields of `*http.Request` that `ServeMux` and the router read. -/
structure Request where
  /-- The field `r.Method`. -/
  Method : String
  /-- The field `r.URL.Path`. -/
  Path : String
  /-- The field `r.Host`. -/
  Host : String
  /-- The field `r.URL.Host`. -/
  URLHost : String
  /-- The field `r.RequestURI`. -/
  RequestURI : String
  deriving DecidableEq, Repr

/-- What serving a request does, as far as the router is concerned: a call of
a user handler `h.ServeHTTP(w, r)`, or one of the responses that `net/http`
writes itself.  `H` is the type of user handlers and `W` the type of response
writers. -/
inductive Event (H W : Type) where
  /-- The call `h.ServeHTTP(w, r)` of a user handler. -/
  | serve (h : H) (w : W) (r : Request)
  /-- The response of `http.NotFound(w, r)`: "404 page not found", status 404. -/
  | notFound (w : W) (r : Request)
  /-- The response of `http.Redirect(w, r, url, code)`, `url` having the path `target`. -/
  | redirect (w : W) (r : Request) (target : String) (code : Nat)
  /-- The response `w.WriteHeader(StatusBadRequest)`, status 400. -/
  | badRequest (w : W) (r : Request)
  deriving DecidableEq, Repr

/-- The status code of a response written by `net/http` itself; `none` for a
call of a user handler, which writes what it wants. -/
def Event.status {H W : Type} : Event H W → Option Nat
  | Event.serve _ _ _ => none
  | Event.notFound _ _ => some 404
  | Event.redirect _ _ _ code => some code
  | Event.badRequest _ _ => some 400

/-- Whether the event is a call of a user handler. -/
def Event.isServe {H W : Type} : Event H W → Bool
  | Event.serve _ _ _ => true
  | _ => false

/-- Go `http.HandlerFunc`: a function used as a handler. -/
abbrev HandlerFunc (H W : Type) := W → Request → List (Event H W)

/-- Go `http.NotFound(w, r)`: replies with a 404 not found error. -/
def NotFound {H W : Type} : HandlerFunc H W := fun w r => [Event.notFound w r]

/-- Go `http.NotFoundHandler()`: `HandlerFunc(NotFound)`. -/
def NotFoundHandler {H W : Type} : HandlerFunc H W := NotFound

/-- Go `http.RedirectHandler(url, code)`. -/
def RedirectHandler {H W : Type} (target : String) (code : Nat) : HandlerFunc H W :=
  fun w r => [Event.redirect w r target code]

/-- Go `http.StatusMovedPermanently`. -/
def StatusMovedPermanently : Nat := 301

/-- Go `muxEntry`. -/
structure muxEntry (H W : Type) where
  /-- The registered handler. -/
  h : HandlerFunc H W
  /-- The pattern it was registered for. -/
  pattern : String

/-- Go `http.ServeMux`.  The map `m` is a list of bindings, looked up from the
front; `Handle` adds a binding only for a key that has none. -/
structure ServeMux (H W : Type) where
  /-- The field `m map[string]muxEntry`. -/
  m : List (String × muxEntry H W)
  /-- The field `es`: entries whose pattern ends in `/`, longest first. -/
  es : List (muxEntry H W)
  /-- The field `hosts`: whether any pattern contains a host name. -/
  hosts : Bool

/-- Go `http.NewServeMux()`. -/
def NewServeMux {H W : Type} : ServeMux H W := { m := [], es := [], hosts := false }

/-- Go `cleanPath`: the canonical path for `p`, eliminating `.` and `..` elements. -/
def cleanPath (p : String) : String :=
  if p = "" then "/"
  else
    let p1 := if firstIs p '/' then p else "/" ++ p
    let np := path.Clean p1
    if lastIs p1 '/' ∧ np ≠ "/" then
      if p1.length = np.length + 1 ∧ HasPrefix p1 np then p1 else np ++ "/"
    else np

/-- Go `stripHostPort`: `h` without any trailing `:<port>`. -/
def stripHostPort (h : String) : String :=
  if (IndexByte h.data ':').isNone then h
  else
    match net.SplitHostPort h with
    | none => h
    | some (host, _) => host

/-- Go `sort.Search(n, f)`: binary search for the smallest index in `[0, n)`
at which `f` is true; `fuel` bounds the number of halvings. -/
def sortSearch (f : Nat → Bool) : Nat → Nat → Nat → Nat
  | 0, i, _ => i
  | fuel + 1, i, j =>
    if i < j then
      let h := (i + j) / 2
      if !f h then sortSearch f fuel (h + 1) j else sortSearch f fuel i h
    else i

/-- Go `appendSorted`: inserts `e` before the first entry with a shorter pattern. -/
def appendSorted {H W : Type} (es : List (muxEntry H W)) (e : muxEntry H W) :
    List (muxEntry H W) :=
  let n := es.length
  let i := sortSearch
    (fun k => match es.get? k with
      | some x => decide (x.pattern.length < e.pattern.length)
      | none => false) n 0 n
  if i = n then es ++ [e] else es.take i ++ e :: es.drop i

/-- Go `(*ServeMux).Handle(pattern, handler)`.  The panics are the error
results; the check `handler == nil` has no counterpart, a `HandlerFunc` here
is never nil. -/
def ServeMux.Handle {H W : Type} (mux : ServeMux H W) (pattern : String)
    (handler : HandlerFunc H W) : Except String (ServeMux H W) :=
  if pattern = "" then Except.error "http: invalid pattern"
  else if (mux.m.lookup pattern).isSome then
    Except.error ("http: multiple registrations for " ++ pattern)
  else
    let e : muxEntry H W := { h := handler, pattern := pattern }
    Except.ok
      { m := (pattern, e) :: mux.m
        es := if lastIs pattern '/' then appendSorted mux.es e else mux.es
        hosts := if firstIs pattern '/' then mux.hosts else true }

/-- Go `(*ServeMux).HandleFunc(pattern, handler)`. -/
def ServeMux.HandleFunc {H W : Type} (mux : ServeMux H W) (pattern : String)
    (handler : W → Request → List (Event H W)) : Except String (ServeMux H W) :=
  mux.Handle pattern handler

/-- Go `(*ServeMux).match(path)`: the handler and pattern for a path, an
exact match first, then the longest registered pattern ending in `/` that
`path` starts with; `none` stands for the result `nil, ""`. -/
def ServeMux.matchPath {H W : Type} (mux : ServeMux H W) (path : String) :
    Option (HandlerFunc H W × String) :=
  match mux.m.lookup path with
  | some v => some (v.h, v.pattern)
  | none =>
    match mux.es.find? (fun e => HasPrefix path e.pattern) with
    | some e => some (e.h, e.pattern)
    | none => none

/-- Go `(*ServeMux).shouldRedirectRLocked(host, path)`: whether a handler is
registered for `path + "/"` but not for `path`. -/
def ServeMux.shouldRedirectRLocked {H W : Type} (mux : ServeMux H W) (host path : String) :
    Bool :=
  let p := [path, host ++ path]
  if p.any (fun c => (mux.m.lookup c).isSome) then false
  else if path.length = 0 then false
  else if p.any (fun c => (mux.m.lookup (c ++ "/")).isSome) then !lastIs path '/'
  else false

/-- Go `(*ServeMux).redirectToPathSlash(host, path, u)`: the path of the URL
to redirect to when `path` needs `/` appended. -/
def ServeMux.redirectToPathSlash {H W : Type} (mux : ServeMux H W) (host path : String) :
    Option String :=
  if mux.shouldRedirectRLocked host path then some (path ++ "/") else none

/-- Go `(*ServeMux).handler(host, path)`: the main implementation of `Handler`. -/
def ServeMux.handler {H W : Type} (mux : ServeMux H W) (host path : String) :
    HandlerFunc H W × String :=
  let byHost := if mux.hosts then mux.matchPath (host ++ path) else none
  let found := match byHost with
    | some x => some x
    | none => mux.matchPath path
  match found with
  | some x => x
  | none => (NotFoundHandler, "")

/-- Go `(*ServeMux).Handler(r)`: the handler to use for the request and the
pattern that matched. -/
def ServeMux.Handler {H W : Type} (mux : ServeMux H W) (r : Request) :
    HandlerFunc H W × String :=
  if r.Method = "CONNECT" then
    -- CONNECT requests are not canonicalized.
    match mux.redirectToPathSlash r.URLHost r.Path with
    | some u => (RedirectHandler u StatusMovedPermanently, u)
    | none => mux.handler r.Host r.Path
  else
    let host := stripHostPort r.Host
    let path := cleanPath r.Path
    match mux.redirectToPathSlash host path with
    | some u => (RedirectHandler u StatusMovedPermanently, u)
    | none =>
      if path ≠ r.Path then
        (RedirectHandler path StatusMovedPermanently, (mux.handler host path).2)
      else mux.handler host r.Path

/-- Go `(*ServeMux).ServeHTTP(w, r)`: dispatches the request to the handler
whose pattern most closely matches the request URL. -/
def ServeMux.ServeHTTP {H W : Type} (mux : ServeMux H W) (w : W) (r : Request) :
    List (Event H W) :=
  if r.RequestURI = "*" then [Event.badRequest w r]
  else (mux.Handler r).1 w r

end http

namespace kitty

open http

/-- The map `mc` of `Handle`, `map[string]struct{}`, as the list of its keys. -/
abbrev MethodSet := List String

/-- The statement `mc[method] = struct{}{}`. -/
def MethodSet.set (mc : MethodSet) (method : String) : MethodSet :=
  if method ∈ mc then mc else method :: mc

/-- The lookup `_, found := mc[method]`. -/
def MethodSet.found (mc : MethodSet) (method : String) : Bool := decide (method ∈ mc)

/-- Go `stdlibRouter`: a Router implementation for `http.ServeMux`. -/
structure stdlibRouter (H W : Type) where
  /-- The field `mux *http.ServeMux`. -/
  mux : ServeMux H W

/-- Go `StdlibRouter()`: a Router based on stdlib. -/
def StdlibRouter {H W : Type} : stdlibRouter H W := { mux := NewServeMux }

/-- The function literal that `Handle` registers for every path: it serves
the request with `h` when the request's method is a key of `mc`, and replies
with `http.NotFound` otherwise. -/
def stdlibRouter.dispatch {H W : Type} (mc : MethodSet) (h : H) : HandlerFunc H W :=
  fun w r => if mc.found r.Method then [Event.serve h w r] else NotFound w r

/-- The second loop of `Handle`, `for _, path := range paths`.  A panic of
`HandleFunc` ends the loop; the registrations made before it stay. -/
def stdlibRouter.handlePaths {H W : Type} (mc : MethodSet) (h : H) :
    stdlibRouter H W → List String → stdlibRouter H W × Option String
  | g, [] => (g, none)
  | g, path :: rest =>
    match g.mux.HandleFunc path (stdlibRouter.dispatch mc h) with
    | Except.ok mux1 => stdlibRouter.handlePaths mc h { mux := mux1 } rest
    | Except.error msg => (g, some msg)

/-- Go `(*stdlibRouter).Handle(methods, paths, h)`: registers a handler to the
router.  The result is the router after the call and the panic that ended
it, if any. -/
def stdlibRouter.Handle {H W : Type} (g : stdlibRouter H W) (methods paths : List String)
    (h : H) : stdlibRouter H W × Option String :=
  let mc : MethodSet := methods.foldl MethodSet.set []
  stdlibRouter.handlePaths mc h g paths

/-- Go `(*stdlibRouter).SetNotFoundHandler(h)`: does nothing, as the Not
Found handler of the stdlib cannot be overridden. -/
def stdlibRouter.SetNotFoundHandler {H W : Type} (g : stdlibRouter H W) (_h : H) :
    stdlibRouter H W := g

/-- Go `(*stdlibRouter).ServeHTTP(w, r)`: dispatches the handler registered
in the matched route. -/
def stdlibRouter.ServeHTTP {H W : Type} (g : stdlibRouter H W) (w : W) (r : Request) :
    List (Event H W) :=
  g.mux.ServeHTTP w r

/-- The Go statement sequence `first; next` on a router: `next` runs on the
router that `first` left, unless `first` panicked, which ends the sequence. -/
def andThen {H W : Type} (first : stdlibRouter H W × Option String)
    (next : stdlibRouter H W → stdlibRouter H W × Option String) :
    stdlibRouter H W × Option String :=
  match first with
  | (g1, none) => next g1
  | (g1, some msg) => (g1, some msg)

/-- The dispatch closure of the specification, section 4.2 step 2: on
invocation it checks whether the request's method is in the membership set
of `methods`; if present it delegates to `handler`, otherwise it responds
with the standard not-found outcome. -/
def dispatchSpec {H W : Type} (methods : List String) (handler : H) : HandlerFunc H W :=
  fun w r => if r.Method ∈ methods then [Event.serve handler w r] else [Event.notFound w r]

/-- The registration of the specification, section 4.2 step 2: for each path
of `paths`, in the caller's order, register with the underlying multiplexer
the dispatch closure over the same method set and handler.  A registration
that the multiplexer refuses ends it, the earlier ones stay. -/
def registerOneByOne {H W : Type} (methods : List String) (handler : H) :
    stdlibRouter H W → List String → stdlibRouter H W × Option String
  | g, [] => (g, none)
  | g, p :: rest =>
    match g.mux.HandleFunc p (dispatchSpec methods handler) with
    | Except.ok mux1 => registerOneByOne methods handler { mux := mux1 } rest
    | Except.error msg => (g, some msg)

/-- One call of `Handle`: its three arguments. -/
structure Registration (H : Type) where
  /-- The argument `methods`. -/
  methods : List String
  /-- The argument `paths`. -/
  paths : List String
  /-- The argument `h`. -/
  h : H

/-- The router after a sequence of `Handle` calls, each made on the router
that the previous one left (a call that panicked leaves the registrations it
made before the panic). -/
def stdlibRouter.handleAll {H W : Type} (g : stdlibRouter H W) (calls : List (Registration H)) :
    stdlibRouter H W :=
  calls.foldl (fun g1 c => (g1.Handle c.methods c.paths c.h).1) g

/-- Every path that a sequence of `Handle` calls was given. -/
def registeredPaths {H : Type} (calls : List (Registration H)) : List String :=
  calls.flatMap (fun c => c.paths)

/-- The matching rule of `ServeMux`: a pattern matches the name equal to it,
and a pattern ending in `/` matches every name that starts with it. -/
def patternMatches (pattern name : String) : Bool :=
  pattern == name || (gostrings.lastIs pattern '/' && gostrings.HasPrefix name pattern)

/-- The host under which `ServeMux.Handler` looks a request up: `r.Host` for a
CONNECT request, `r.Host` without its port for any other. -/
def lookupHost (r : Request) : String :=
  if r.Method = "CONNECT" then r.Host else stripHostPort r.Host

/-- The host with which `ServeMux.Handler` decides the redirect to
`path + "/"`: `r.URL.Host` for a CONNECT request, `r.Host` without its port
for any other. -/
def redirectHost (r : Request) : String :=
  if r.Method = "CONNECT" then r.URLHost else stripHostPort r.Host

/-- The requests that `ServeMux` looks up under the path they carry: the
request URI is not `*`, and the path is in canonical form or the method is
CONNECT (CONNECT requests are not canonicalized). -/
def direct (r : Request) : Bool :=
  decide (r.RequestURI ≠ "*") && (decide (r.Method = "CONNECT") || decide (cleanPath r.Path = r.Path))

/-- Go interface `Router`: a value of some implementation with its three
methods.  A method that mutates its receiver returns the receiver after the
call. -/
structure Router (H W : Type) where
  /-- The implementation's type. -/
  State : Type
  /-- The value behind the interface. -/
  self : State
  /-- The method `Handle(method, path, handler)`, with the panic that ended it, if any. -/
  Handle : State → List String → List String → H → State × Option String
  /-- The method `SetNotFoundHandler(handler)`. -/
  SetNotFoundHandler : State → H → State
  /-- The method `ServeHTTP(w, r)`. -/
  ServeHTTP : State → W → Request → List (Event H W)

/-- The call `r.SetNotFoundHandler(h)` through the interface: the same
implementation, its value the one the method leaves. -/
def Router.callSetNotFoundHandler {H W : Type} (r : Router H W) (h : H) : Router H W :=
  { r with self := r.SetNotFoundHandler r.self h }

/-- The call `r.ServeHTTP(w, req)` through the interface. -/
def Router.callServeHTTP {H W : Type} (r : Router H W) (w : W) (req : Request) :
    List (Event H W) :=
  r.ServeHTTP r.self w req

/-- The declaration `var _ Router = &stdlibRouter{}`: a `stdlibRouter` as a `Router`. -/
def stdlibRouter.toRouter {H W : Type} (g : stdlibRouter H W) : Router H W :=
  { State := stdlibRouter H W
    self := g
    Handle := stdlibRouter.Handle
    SetNotFoundHandler := stdlibRouter.SetNotFoundHandler
    ServeHTTP := stdlibRouter.ServeHTTP }

/-- Go `RouterOption`: sets optional Router overrides. -/
abbrev RouterOption (H W : Type) := Router H W → Router H W

/-- Go `NotFoundHandler(h)`: sets the not found handler of the router. -/
def NotFoundHandler {H W : Type} (h : H) : RouterOption H W :=
  fun r => r.callSetNotFoundHandler h

/-- Modelled from the spec: the struct `Server`, declared in another file of
the package.  It holds one active Router, unset at construction; `fields`
stands for everything else it holds. -/
structure Server (H W F : Type) where
  /-- The field `mux Router`, `none` while unset. -/
  mux : Option (Router H W)
  /-- The other fields. -/
  fields : F

/-- The loop `for _, opt := range opts { r = opt(r) }` of `Server.Router`. -/
def applyOptions {H W : Type} : Router H W → List (RouterOption H W) → Router H W
  | r, [] => r
  | r, opt :: rest => applyOptions (opt r) rest

/-- Go `(*Server).Router(r, opts...)`: injects an alternate Router
implementation; the result is the server after the call. -/
def Server.Router {H W F : Type} (s : Server H W F) (r : Router H W)
    (opts : List (RouterOption H W)) : Server H W F :=
  { s with mux := some (applyOptions r opts) }

/-- Whether the mux of the router matches the request to no pattern: not its
path and, when host-specific patterns exist, not its host followed by its path. -/
def stdlibRouter.unmatched {H W : Type} (g : stdlibRouter H W) (r : Request) : Bool :=
  (g.mux.matchPath r.Path).isNone &&
    (!g.mux.hosts || (g.mux.matchPath (lookupHost r ++ r.Path)).isNone)

/-- Every key of the map and every pattern of the sorted entries is one of
`pats`, and the sorted entries end in `/`. -/
def registeredWithin {H W : Type} (pats : List String) (mux : ServeMux H W) : Prop :=
  (∀ kv ∈ mux.m, kv.1 ∈ pats) ∧
    (∀ e ∈ mux.es, e.pattern ∈ pats ∧ gostrings.lastIs e.pattern '/' = true)

/-- A request as a server receives it for `path` on the host `example.com`. -/
def exampleRequest (method path : String) : Request :=
  { Method := method, Path := path, Host := "example.com", URLHost := "", RequestURI := path }

/-! # Theorems -/

open gostrings

/-! ## The method set -/

theorem MethodSet.mem_set (mc : MethodSet) (method x : String) :
    x ∈ MethodSet.set mc method ↔ x = method ∨ x ∈ mc := by
  unfold MethodSet.set
  by_cases hm : method ∈ mc
  · simp only [hm, if_true]
    constructor
    · intro hx; exact Or.inr hx
    · rintro (rfl | hx)
      · exact hm
      · exact hx
  · simp only [hm, if_false, List.mem_cons]

theorem MethodSet.mem_foldl (methods : List String) (mc : MethodSet) (x : String) :
    x ∈ methods.foldl MethodSet.set mc ↔ x ∈ mc ∨ x ∈ methods := by
  induction methods generalizing mc with
  | nil => simp
  | cons a rest ih =>
    rw [List.foldl_cons, ih, MethodSet.mem_set, List.mem_cons]
    constructor
    · rintro ((rfl | h) | h)
      · exact Or.inr (Or.inl rfl)
      · exact Or.inl h
      · exact Or.inr (Or.inr h)
    · rintro (h | rfl | h)
      · exact Or.inl (Or.inr h)
      · exact Or.inl (Or.inl rfl)
      · exact Or.inr h

theorem MethodSet.found_iff (methods : List String) (x : String) :
    MethodSet.found (methods.foldl MethodSet.set []) x = true ↔ x ∈ methods := by
  unfold MethodSet.found
  rw [decide_eq_true_iff, MethodSet.mem_foldl]
  simp

theorem dispatch_of_mem {H W : Type} (methods : List String) (h : H) (w : W) (r : Request)
    (hm : r.Method ∈ methods) :
    stdlibRouter.dispatch (methods.foldl MethodSet.set []) h w r = [Event.serve h w r] := by
  unfold stdlibRouter.dispatch
  rw [if_pos ((MethodSet.found_iff methods r.Method).2 hm)]

theorem dispatch_of_not_mem {H W : Type} (methods : List String) (h : H) (w : W) (r : Request)
    (hm : r.Method ∉ methods) :
    stdlibRouter.dispatch (methods.foldl MethodSet.set []) h w r = [Event.notFound w r] := by
  unfold stdlibRouter.dispatch
  have : MethodSet.found (methods.foldl MethodSet.set []) r.Method ≠ true :=
    fun hf => hm ((MethodSet.found_iff methods r.Method).1 hf)
  rw [if_neg this]
  rfl

/-! ## Registration in the mux -/

theorem lookup_cons_self {β : Type} (k : String) (v : β) (l : List (String × β)) :
    List.lookup k ((k, v) :: l) = some v := by
  simp [List.lookup]

theorem lookup_cons_ne {β : Type} (k a : String) (v : β) (l : List (String × β)) (h : a ≠ k) :
    List.lookup a ((k, v) :: l) = List.lookup a l := by
  have : (a == k) = false := by simpa using h
  simp [List.lookup, this]

theorem lookup_none_of_not_mem_keys {β : Type} (a : String) (l : List (String × β))
    (h : ∀ kv ∈ l, kv.1 ≠ a) : List.lookup a l = none := by
  induction l with
  | nil => rfl
  | cons kv rest ih =>
    obtain ⟨k, v⟩ := kv
    have hk : a ≠ k := fun e => h (k, v) (List.mem_cons_self _ _) e.symm
    rw [lookup_cons_ne k a v rest hk]
    exact ih (fun kv hkv => h kv (List.mem_cons_of_mem _ hkv))

theorem ServeMux.Handle_ok {H W : Type} (mux mux1 : ServeMux H W) (pattern : String)
    (f : HandlerFunc H W) (hok : mux.Handle pattern f = Except.ok mux1) :
    pattern ≠ "" ∧ mux.m.lookup pattern = none ∧
      mux1.m = (pattern, { h := f, pattern := pattern }) :: mux.m ∧
      mux1.es = (if lastIs pattern '/' then
        appendSorted mux.es { h := f, pattern := pattern } else mux.es) ∧
      mux1.hosts = (if firstIs pattern '/' then mux.hosts else true) := by
  unfold ServeMux.Handle at hok
  by_cases h1 : pattern = ""
  · rw [if_pos h1] at hok; cases hok
  · rw [if_neg h1] at hok
    by_cases h2 : (mux.m.lookup pattern).isSome = true
    · rw [if_pos h2] at hok; cases hok
    · rw [if_neg h2] at hok
      injection hok with hok
      subst hok
      refine ⟨h1, ?_, rfl, rfl, rfl⟩
      cases hl : mux.m.lookup pattern with
      | none => rfl
      | some v => rw [hl] at h2; exact absurd rfl h2

theorem ServeMux.Handle_multiple {H W : Type} (mux : ServeMux H W) (pattern : String)
    (f : HandlerFunc H W) (v : muxEntry H W) (hne : pattern ≠ "")
    (hl : mux.m.lookup pattern = some v) :
    mux.Handle pattern f = Except.error ("http: multiple registrations for " ++ pattern) := by
  unfold ServeMux.Handle
  rw [if_neg hne, hl]
  rfl

theorem handlePaths_ok {H W : Type} (mc : MethodSet) (h : H) :
    ∀ (ps : List String) (g g1 : stdlibRouter H W),
      stdlibRouter.handlePaths mc h g ps = (g1, none) →
      (∀ p ∈ ps, g1.mux.m.lookup p =
          some { h := stdlibRouter.dispatch mc h, pattern := p }) ∧
      (∀ k, k ∉ ps → g1.mux.m.lookup k = g.mux.m.lookup k) := by
  intro ps
  induction ps with
  | nil =>
    intro g g1 hg
    simp only [stdlibRouter.handlePaths, Prod.mk.injEq, and_true] at hg
    subst hg
    exact ⟨fun p hp => absurd hp (List.not_mem_nil p), fun _ _ => rfl⟩
  | cons a rest ih =>
    intro g g1 hg
    unfold stdlibRouter.handlePaths at hg
    cases hres : g.mux.HandleFunc a (stdlibRouter.dispatch mc h) with
    | error msg =>
      rw [hres] at hg
      simp at hg
    | ok mux1 =>
      rw [hres] at hg
      simp only at hg
      obtain ⟨_, _, hm, _, _⟩ := ServeMux.Handle_ok g.mux mux1 a _ hres
      obtain ⟨ih1, ih2⟩ := ih { mux := mux1 } g1 hg
      constructor
      · intro p hp
        by_cases hpr : p ∈ rest
        · exact ih1 p hpr
        · have hpa : p = a := by
            rcases List.mem_cons.1 hp with e | e
            · exact e
            · exact absurd e hpr
          subst hpa
          rw [ih2 p hpr]
          show List.lookup p mux1.m = _
          rw [hm]
          exact lookup_cons_self _ _ _
      · intro k hk
        have hka : k ≠ a := fun e => hk (e ▸ List.mem_cons_self _ _)
        have hkr : k ∉ rest := fun e => hk (List.mem_cons_of_mem _ e)
        rw [ih2 k hkr]
        show List.lookup k mux1.m = _
        rw [hm]
        exact lookup_cons_ne _ _ _ _ hka

/-! ## Serving a request -/

theorem shouldRedirect_of_lookup {H W : Type} (mux : ServeMux H W) (host path : String)
    (v : muxEntry H W) (hl : mux.m.lookup path = some v) :
    mux.shouldRedirectRLocked host path = false := by
  unfold ServeMux.shouldRedirectRLocked
  simp [hl]

theorem matchPath_of_lookup {H W : Type} (mux : ServeMux H W) (path : String)
    (v : muxEntry H W) (hl : mux.m.lookup path = some v) :
    mux.matchPath path = some (v.h, v.pattern) := by
  unfold ServeMux.matchPath
  rw [hl]

theorem handler_of_lookup {H W : Type} (mux : ServeMux H W) (host path : String)
    (v : muxEntry H W) (hh : mux.hosts = false) (hl : mux.m.lookup path = some v) :
    mux.handler host path = (v.h, v.pattern) := by
  unfold ServeMux.handler
  rw [hh, matchPath_of_lookup mux path v hl]
  rfl

theorem handler_of_no_match {H W : Type} (mux : ServeMux H W) (host path : String)
    (h1 : mux.matchPath (host ++ path) = none) (h2 : mux.matchPath path = none) :
    mux.handler host path = (http.NotFoundHandler, "") := by
  unfold ServeMux.handler
  rw [h1, h2]
  cases mux.hosts <;> rfl

theorem direct_iff (r : Request) :
    direct r = true ↔
      r.RequestURI ≠ "*" ∧ (r.Method = "CONNECT" ∨ cleanPath r.Path = r.Path) := by
  unfold direct
  simp

/-- The three things `ServeMux.ServeHTTP` can do. -/
theorem ServeHTTP_cases {H W : Type} (mux : ServeMux H W) (w : W) (r : Request) :
    mux.ServeHTTP w r = [Event.badRequest w r] ∨
      (∃ t, mux.ServeHTTP w r = [Event.redirect w r t 301]) ∨
      mux.ServeHTTP w r = (mux.handler (lookupHost r) r.Path).1 w r := by
  unfold ServeMux.ServeHTTP
  by_cases hu : r.RequestURI = "*"
  · left; rw [if_pos hu]
  · right
    rw [if_neg hu]
    unfold ServeMux.Handler lookupHost
    by_cases hc : r.Method = "CONNECT"
    · rw [if_pos hc, if_pos hc]
      cases mux.redirectToPathSlash r.URLHost r.Path with
      | some u => left; exact ⟨u, rfl⟩
      | none => right; rfl
    · rw [if_neg hc, if_neg hc]
      simp only
      cases mux.redirectToPathSlash (stripHostPort r.Host) (cleanPath r.Path) with
      | some u => left; exact ⟨u, rfl⟩
      | none =>
        simp only
        by_cases hp : cleanPath r.Path = r.Path
        · right
          rw [if_neg (not_not.2 hp)]
        · left
          rw [if_pos hp]
          exact ⟨cleanPath r.Path, rfl⟩

/-- A request that is looked up under its own path and not redirected to
`path + "/"` is served by the handler that `ServeMux.handler` finds. -/
theorem ServeHTTP_direct {H W : Type} (mux : ServeMux H W) (w : W) (r : Request)
    (hd : direct r = true)
    (hs : mux.shouldRedirectRLocked (redirectHost r) r.Path = false) :
    mux.ServeHTTP w r = (mux.handler (lookupHost r) r.Path).1 w r := by
  obtain ⟨hu, hcp⟩ := (direct_iff r).1 hd
  unfold ServeMux.ServeHTTP
  rw [if_neg hu]
  unfold ServeMux.Handler lookupHost
  unfold redirectHost at hs
  by_cases hc : r.Method = "CONNECT"
  · rw [if_pos hc] at hs
    rw [if_pos hc, if_pos hc]
    unfold ServeMux.redirectToPathSlash
    rw [hs]
    rfl
  · rw [if_neg hc] at hs
    have hp : cleanPath r.Path = r.Path := by
      rcases hcp with h | h
      · exact absurd h hc
      · exact h
    rw [if_neg hc, if_neg hc]
    simp only
    rw [hp]
    unfold ServeMux.redirectToPathSlash
    rw [hs]
    simp

theorem ServeHTTP_of_lookup {H W : Type} (mux : ServeMux H W) (w : W) (r : Request)
    (v : muxEntry H W) (hh : mux.hosts = false) (hl : mux.m.lookup r.Path = some v)
    (hd : direct r = true) :
    mux.ServeHTTP w r = v.h w r := by
  rw [ServeHTTP_direct mux w r hd (shouldRedirect_of_lookup mux _ _ v hl),
    handler_of_lookup mux _ _ v hh hl]

theorem Handle_single {H W : Type} (g : stdlibRouter H W) (M : List String) (p : String) (h : H) :
    g.Handle M [p] h =
      match g.mux.HandleFunc p (stdlibRouter.dispatch (M.foldl MethodSet.set []) h) with
      | Except.ok mux1 => ({ mux := mux1 }, none)
      | Except.error msg => (g, some msg) := by
  unfold stdlibRouter.Handle
  simp only [stdlibRouter.handlePaths]

theorem Handle_registered {H W : Type} (g : stdlibRouter H W) (M P : List String) (h : H)
    (hok : (g.Handle M P h).2 = none) (p : String) (hp : p ∈ P) :
    (g.Handle M P h).1.mux.m.lookup p =
      some { h := stdlibRouter.dispatch (M.foldl MethodSet.set []) h, pattern := p } := by
  have hpair : stdlibRouter.handlePaths (M.foldl MethodSet.set []) h g P =
      ((g.Handle M P h).1, none) := by
    rw [← hok]
    rfl
  exact (handlePaths_ok _ h P g _ hpair).1 p hp

/-- Claim C1 (amended): for every router state, method list M, path list P and handler h,
when Handle(M, P, h) returns without a panic and the router then holds no host-specific
pattern, ServeHTTP on a request whose method is an element of M, whose path is an element of
P and which the mux looks up under that path (request URI not "*", path in canonical form or
method CONNECT) calls h exactly once with the (response, request) pair it was given, and
writes nothing itself. -/
theorem Handle_then_ServeHTTP_serves {H W : Type} (g : stdlibRouter H W) (M P : List String)
    (h : H) (w : W) (r : Request)
    (hok : (g.Handle M P h).2 = none)
    (hhosts : (g.Handle M P h).1.mux.hosts = false)
    (hm : r.Method ∈ M) (hp : r.Path ∈ P) (hd : direct r = true) :
    (g.Handle M P h).1.ServeHTTP w r = [Event.serve h w r] := by
  unfold stdlibRouter.ServeHTTP
  rw [ServeHTTP_of_lookup _ w r _ hhosts (Handle_registered g M P h hok r.Path hp) hd]
  exact dispatch_of_mem M h w r hm

/-- Scenario B of the specification: after registering GET and POST for /a and /b on a fresh
router, POST /b calls the handler. -/
theorem Handle_then_ServeHTTP_serves_witness :
    (exampleRequest "POST" "/b").Method ∈ ["GET", "POST"] ∧
    ((StdlibRouter : stdlibRouter String Unit).Handle ["GET", "POST"] ["/a", "/b"] "H2").1.ServeHTTP ()
      (exampleRequest "POST" "/b") = [Event.serve "H2" () (exampleRequest "POST" "/b")] :=
  ⟨by decide, Handle_then_ServeHTTP_serves StdlibRouter ["GET", "POST"] ["/a", "/b"] "H2" ()
    (exampleRequest "POST" "/b") (by decide) (by decide) (by decide) (by decide) (by decide)⟩

/-- Claim C1 fails as stated: on a fresh router Handle([GET], [/a//b], H1) returns, and the
request GET /a//b, whose method and path were registered, is answered by a 301 redirect to
/a/b; H1 is not called. -/
theorem Handle_noncanonical_path_redirects :
    ((StdlibRouter : stdlibRouter String Unit).Handle ["GET"] ["/a//b"] "H1").2 = none ∧
    ((StdlibRouter : stdlibRouter String Unit).Handle ["GET"] ["/a//b"] "H1").1.ServeHTTP ()
      (exampleRequest "GET" "/a//b") =
        [Event.redirect () (exampleRequest "GET" "/a//b") "/a/b" 301] := by
  decide

theorem no_serve_of_cases {H W : Type} (out : List (Event H W)) (w : W) (r : Request)
    (hc : out = [Event.notFound w r] ∨ out = [Event.badRequest w r] ∨
      ∃ t, out = [Event.redirect w r t 301]) :
    ∀ e ∈ out, e.isServe = false := by
  intro e he
  rcases hc with h | h | ⟨t, h⟩ <;>
    · rw [h] at he
      rw [List.mem_singleton.1 he]
      rfl

/-- A request whose path has an entry in the map of a mux without
host-specific patterns is answered by `400`, by a redirect, or by the entry's
handler. -/
theorem ServeHTTP_lookup_cases {H W : Type} (mux : ServeMux H W) (w : W) (r : Request)
    (v : muxEntry H W) (hh : mux.hosts = false) (hl : mux.m.lookup r.Path = some v) :
    mux.ServeHTTP w r = [Event.badRequest w r] ∨
      (∃ t, mux.ServeHTTP w r = [Event.redirect w r t 301]) ∨
      mux.ServeHTTP w r = v.h w r := by
  rcases ServeHTTP_cases mux w r with h | h | h
  · exact Or.inl h
  · exact Or.inr (Or.inl h)
  · right; right
    rw [h, handler_of_lookup mux _ _ v hh hl]

/-- Claim C2 (amended): for every router state, method list M, path list P and handler h,
when Handle(M, P, h) returns without a panic and the router then holds no host-specific
pattern, ServeHTTP on a request whose path is an element of P but whose method is not an
element of M calls no handler, so never h; and when the mux looks the request up under its
path (request URI not "*", path in canonical form or method CONNECT) the response is the
standard not-found response, status 404. -/
theorem Handle_then_ServeHTTP_not_found {H W : Type} (g : stdlibRouter H W)
    (M P : List String) (h : H) (w : W) (r : Request)
    (hok : (g.Handle M P h).2 = none)
    (hhosts : (g.Handle M P h).1.mux.hosts = false)
    (hm : r.Method ∉ M) (hp : r.Path ∈ P) :
    (∀ e ∈ (g.Handle M P h).1.ServeHTTP w r, e.isServe = false) ∧
    (direct r = true →
      (g.Handle M P h).1.ServeHTTP w r = [Event.notFound w r] ∧
      ((g.Handle M P h).1.ServeHTTP w r).map Event.status = [some 404]) := by
  have hl := Handle_registered g M P h hok r.Path hp
  constructor
  · apply no_serve_of_cases _ w r
    unfold stdlibRouter.ServeHTTP
    rcases ServeHTTP_lookup_cases _ w r _ hhosts hl with h1 | h1 | h1
    · exact Or.inr (Or.inl h1)
    · exact Or.inr (Or.inr h1)
    · left
      rw [h1]
      exact dispatch_of_not_mem M h w r hm
  · intro hd
    have : (g.Handle M P h).1.ServeHTTP w r = [Event.notFound w r] := by
      unfold stdlibRouter.ServeHTTP
      rw [ServeHTTP_of_lookup _ w r _ hhosts hl hd]
      exact dispatch_of_not_mem M h w r hm
    rw [this]
    exact ⟨rfl, rfl⟩

/-- Scenario A of the specification: after registering GET for /x on a fresh router, POST /x
gets the not-found response. -/
theorem Handle_then_ServeHTTP_not_found_witness :
    (∀ e ∈ ((StdlibRouter : stdlibRouter String Unit).Handle ["GET"] ["/x"] "H1").1.ServeHTTP ()
        (exampleRequest "POST" "/x"), e.isServe = false) ∧
    (direct (exampleRequest "POST" "/x") = true →
      ((StdlibRouter : stdlibRouter String Unit).Handle ["GET"] ["/x"] "H1").1.ServeHTTP ()
        (exampleRequest "POST" "/x") = [Event.notFound () (exampleRequest "POST" "/x")] ∧
      (((StdlibRouter : stdlibRouter String Unit).Handle ["GET"] ["/x"] "H1").1.ServeHTTP ()
        (exampleRequest "POST" "/x")).map Event.status = [some 404]) :=
  Handle_then_ServeHTTP_not_found StdlibRouter ["GET"] ["/x"] "H1" ()
    (exampleRequest "POST" "/x") (by decide) (by decide) (by decide) (by decide)

/-- Claim C2 fails as stated: on a fresh router Handle([GET], [/api/./users], H1) returns, and
the request POST /api/./users, to a registered path with a method outside the method list,
gets status 301, not 404. -/
theorem Handle_noncanonical_path_wrong_method_redirects :
    ((StdlibRouter : stdlibRouter String Unit).Handle ["GET"] ["/api/./users"] "H1").2 = none ∧
    (((StdlibRouter : stdlibRouter String Unit).Handle ["GET"] ["/api/./users"] "H1").1.ServeHTTP ()
      (exampleRequest "POST" "/api/./users")).map Event.status = [some 301] := by
  decide

/-- Claim C4 (amended): registering the same path twice on the stdlib router is refused, the
first registration stays.  For every router state, path p, method lists M1, M2 and handlers
h1, h2, when Handle(M1, [p], h1) returns without a panic, a following Handle(M2, [p], h2)
panics with "http: multiple registrations for p" and leaves the router as it was; after it,
a request to p that the mux looks up under its path, on a router without host-specific
patterns, calls h1 if its method is in M1 and gets the not-found response otherwise: M2 and
h2 play no part. -/
theorem Handle_same_path_twice_panics {H W : Type} (g : stdlibRouter H W)
    (M1 M2 : List String) (p : String) (h1 h2 : H)
    (hok : (g.Handle M1 [p] h1).2 = none) :
    (g.Handle M1 [p] h1).1.Handle M2 [p] h2 =
      ((g.Handle M1 [p] h1).1, some ("http: multiple registrations for " ++ p)) ∧
    ∀ (w : W) (r : Request), r.Path = p → direct r = true →
      (g.Handle M1 [p] h1).1.mux.hosts = false →
      ((g.Handle M1 [p] h1).1.Handle M2 [p] h2).1.ServeHTTP w r =
        if r.Method ∈ M1 then [Event.serve h1 w r] else [Event.notFound w r] := by
  have hl := Handle_registered g M1 [p] h1 hok p (List.mem_singleton_self p)
  have hne : p ≠ "" := by
    intro hp
    rw [Handle_single] at hok
    have : g.mux.HandleFunc p (stdlibRouter.dispatch (M1.foldl MethodSet.set []) h1) =
        Except.error "http: invalid pattern" := by
      unfold ServeMux.HandleFunc ServeMux.Handle
      rw [if_pos hp]
    rw [this] at hok
    cases hok
  have hsecond : (g.Handle M1 [p] h1).1.Handle M2 [p] h2 =
      ((g.Handle M1 [p] h1).1, some ("http: multiple registrations for " ++ p)) := by
    rw [Handle_single (g.Handle M1 [p] h1).1 M2 p h2]
    unfold ServeMux.HandleFunc
    rw [ServeMux.Handle_multiple _ p _ _ hne hl]
  refine ⟨hsecond, ?_⟩
  intro w r hp hd hhosts
  rw [hsecond]
  subst hp
  unfold stdlibRouter.ServeHTTP
  rw [ServeHTTP_of_lookup _ w r _ hhosts hl hd]
  by_cases hm : r.Method ∈ M1
  · rw [if_pos hm]
    exact dispatch_of_mem M1 h1 w r hm
  · rw [if_neg hm]
    exact dispatch_of_not_mem M1 h1 w r hm

/-- The second registration of /x on a fresh router panics and GET stays the only method
served. -/
theorem Handle_same_path_twice_panics_witness :
    ((StdlibRouter : stdlibRouter String Unit).Handle ["GET"] ["/x"] "H1").1.Handle
        ["POST"] ["/x"] "H2" =
      (((StdlibRouter : stdlibRouter String Unit).Handle ["GET"] ["/x"] "H1").1,
        some ("http: multiple registrations for " ++ "/x")) ∧
    ∀ (w : Unit) (r : Request), r.Path = "/x" → direct r = true →
      ((StdlibRouter : stdlibRouter String Unit).Handle ["GET"] ["/x"] "H1").1.mux.hosts = false →
      (((StdlibRouter : stdlibRouter String Unit).Handle ["GET"] ["/x"] "H1").1.Handle
        ["POST"] ["/x"] "H2").1.ServeHTTP w r =
        if r.Method ∈ ["GET"] then [Event.serve "H1" w r] else [Event.notFound w r] :=
  Handle_same_path_twice_panics StdlibRouter ["GET"] ["POST"] "/x" "H1" "H2" (by decide)

/-- Claim C4 fails as stated: after Handle([GET], [/x], H1) the call Handle([POST], [/x], H2)
panics; POST /x then gets the not-found response and GET /x is still served by H1. -/
theorem second_registration_not_last_write_wins :
    (((StdlibRouter : stdlibRouter String Unit).Handle ["GET"] ["/x"] "H1").1.Handle
        ["POST"] ["/x"] "H2").2 = some "http: multiple registrations for /x" ∧
    (((StdlibRouter : stdlibRouter String Unit).Handle ["GET"] ["/x"] "H1").1.Handle
        ["POST"] ["/x"] "H2").1.ServeHTTP () (exampleRequest "POST" "/x") =
      [Event.notFound () (exampleRequest "POST" "/x")] ∧
    (((StdlibRouter : stdlibRouter String Unit).Handle ["GET"] ["/x"] "H1").1.Handle
        ["POST"] ["/x"] "H2").1.ServeHTTP () (exampleRequest "GET" "/x") =
      [Event.serve "H1" () (exampleRequest "GET" "/x")] := by
  decide

/-- Claim C7 (amended): the method test of a registered path is a case-sensitive exact
comparison of strings, with no normalization.  For every router state, method list M, path
list P and handler h, when Handle(M, P, h) returns without a panic and the router then holds
no host-specific pattern, for every request whose path is an element of P and which the mux
looks up under that path (request URI not "*", path in canonical form or method CONNECT),
ServeHTTP calls h (once, with the pair it was given) if and only if the request's method is
equal, character for character, to some element of M, and writes the not-found response if
and only if it is equal to none. -/
theorem ServeHTTP_method_test_is_exact {H W : Type} (g : stdlibRouter H W)
    (M P : List String) (h : H) (w : W) (r : Request)
    (hok : (g.Handle M P h).2 = none)
    (hhosts : (g.Handle M P h).1.mux.hosts = false)
    (hp : r.Path ∈ P) (hd : direct r = true) :
    ((g.Handle M P h).1.ServeHTTP w r = [Event.serve h w r] ↔ ∃ m ∈ M, m = r.Method) ∧
    ((g.Handle M P h).1.ServeHTTP w r = [Event.notFound w r] ↔ ∀ m ∈ M, m ≠ r.Method) := by
  have hserve : (g.Handle M P h).1.ServeHTTP w r =
      stdlibRouter.dispatch (M.foldl MethodSet.set []) h w r := by
    unfold stdlibRouter.ServeHTTP
    rw [ServeHTTP_of_lookup _ w r _ hhosts (Handle_registered g M P h hok r.Path hp) hd]
  rw [hserve]
  by_cases hm : r.Method ∈ M
  · rw [dispatch_of_mem M h w r hm]
    constructor
    · exact ⟨fun _ => ⟨r.Method, hm, rfl⟩, fun _ => rfl⟩
    · constructor
      · intro he; cases he
      · intro hall; exact absurd rfl (hall r.Method hm)
  · rw [dispatch_of_not_mem M h w r hm]
    constructor
    · constructor
      · intro he; cases he
      · rintro ⟨m, hmM, rfl⟩; exact absurd hmM hm
    · exact ⟨fun _ m hmM e => hm (e ▸ hmM), fun _ => rfl⟩

/-- The example of the claim: after registering GET for /x on a fresh router, the request
"get" /x, whose method equals no registered method, gets the not-found response and H1 is
not called. -/
theorem ServeHTTP_method_test_is_exact_witness :
    (((StdlibRouter : stdlibRouter String Unit).Handle ["GET"] ["/x"] "H1").1.ServeHTTP ()
        (exampleRequest "get" "/x") = [Event.serve "H1" () (exampleRequest "get" "/x")] ↔
      ∃ m ∈ ["GET"], m = (exampleRequest "get" "/x").Method) ∧
    (((StdlibRouter : stdlibRouter String Unit).Handle ["GET"] ["/x"] "H1").1.ServeHTTP ()
        (exampleRequest "get" "/x") = [Event.notFound () (exampleRequest "get" "/x")] ↔
      ∀ m ∈ ["GET"], m ≠ (exampleRequest "get" "/x").Method) :=
  ServeHTTP_method_test_is_exact StdlibRouter ["GET"] ["/x"] "H1" ()
    (exampleRequest "get" "/x") (by decide) (by decide) (by decide) (by decide)

/-- Claim C7 fails as stated: on a fresh router Handle([GET], [/v1//items], H1) returns, and
the request GET /v1//items, to a registered path with a method equal to an element of the
method list, does not call H1: the mux answers it by a 301 redirect to /v1/items. -/
theorem registered_method_not_served_on_noncanonical_path :
    ((StdlibRouter : stdlibRouter String Unit).Handle ["GET"] ["/v1//items"] "H1").2 = none ∧
    (exampleRequest "GET" "/v1//items").Path ∈ ["/v1//items"] ∧
    (exampleRequest "GET" "/v1//items").Method ∈ ["GET"] ∧
    ((StdlibRouter : stdlibRouter String Unit).Handle ["GET"] ["/v1//items"] "H1").1.ServeHTTP ()
      (exampleRequest "GET" "/v1//items") =
        [Event.redirect () (exampleRequest "GET" "/v1//items") "/v1/items" 301] := by
  decide

/-- The example of the specification for the method test: after registering GET for /x on a
fresh router, a request with the method "get" gets the not-found response. -/
theorem lowercase_method_gets_not_found :
    ((StdlibRouter : stdlibRouter String Unit).Handle ["GET"] ["/x"] "H1").1.ServeHTTP ()
      (exampleRequest "get" "/x") = [Event.notFound () (exampleRequest "get" "/x")] := by
  decide

/-! ## What a sequence of `Handle` calls leaves in the mux -/

theorem mem_appendSorted {H W : Type} (es : List (muxEntry H W)) (e x : muxEntry H W)
    (hx : x ∈ appendSorted es e) : x ∈ es ∨ x = e := by
  unfold appendSorted at hx
  simp only at hx
  split at hx
  · rcases List.mem_append.1 hx with h | h
    · exact Or.inl h
    · exact Or.inr (List.mem_singleton.1 h)
  · rcases List.mem_append.1 hx with h | h
    · exact Or.inl (List.mem_of_mem_take h)
    · rcases List.mem_cons.1 h with h | h
      · exact Or.inr h
      · exact Or.inl (List.mem_of_mem_drop h)

theorem registeredWithin_NewServeMux {H W : Type} (pats : List String) :
    registeredWithin pats (NewServeMux : ServeMux H W) :=
  ⟨fun kv hkv => absurd hkv (List.not_mem_nil kv), fun e he => absurd he (List.not_mem_nil e)⟩

theorem registeredWithin_Handle {H W : Type} (pats : List String) (mux mux1 : ServeMux H W)
    (p : String) (f : HandlerFunc H W) (hin : registeredWithin pats mux) (hp : p ∈ pats)
    (hok : mux.Handle p f = Except.ok mux1) : registeredWithin pats mux1 := by
  obtain ⟨_, _, hm, hes, _⟩ := ServeMux.Handle_ok mux mux1 p f hok
  constructor
  · intro kv hkv
    rw [hm] at hkv
    rcases List.mem_cons.1 hkv with h | h
    · rw [h]; exact hp
    · exact hin.1 kv h
  · intro e he
    rw [hes] at he
    by_cases hl : lastIs p '/' = true
    · rw [if_pos hl] at he
      rcases mem_appendSorted _ _ _ he with h | h
      · exact hin.2 e h
      · rw [h]; exact ⟨hp, hl⟩
    · rw [if_neg hl] at he
      exact hin.2 e he

theorem registeredWithin_handlePaths {H W : Type} (pats : List String) (mc : MethodSet) (h : H) :
    ∀ (ps : List String) (g : stdlibRouter H W), registeredWithin pats g.mux →
      (∀ p ∈ ps, p ∈ pats) →
      registeredWithin pats (stdlibRouter.handlePaths mc h g ps).1.mux := by
  intro ps
  induction ps with
  | nil => intro g hin _; exact hin
  | cons a rest ih =>
    intro g hin hps
    unfold stdlibRouter.handlePaths
    cases hres : g.mux.HandleFunc a (stdlibRouter.dispatch mc h) with
    | error msg => exact hin
    | ok mux1 =>
      simp only
      apply ih
      · exact registeredWithin_Handle pats g.mux mux1 a _ hin
          (hps a (List.mem_cons_self _ _)) hres
      · intro p hp
        exact hps p (List.mem_cons_of_mem _ hp)

theorem registeredWithin_handleAll {H W : Type} (pats : List String) :
    ∀ (calls : List (Registration H)) (g : stdlibRouter H W), registeredWithin pats g.mux →
      (∀ c ∈ calls, ∀ p ∈ c.paths, p ∈ pats) →
      registeredWithin pats (g.handleAll calls).mux := by
  intro calls
  induction calls with
  | nil => intro g hin _; exact hin
  | cons c rest ih =>
    intro g hin hps
    unfold stdlibRouter.handleAll
    rw [List.foldl_cons]
    apply ih
    · exact registeredWithin_handlePaths pats _ c.h c.paths g hin
        (hps c (List.mem_cons_self _ _))
    · intro c1 hc1
      exact hps c1 (List.mem_cons_of_mem _ hc1)

theorem registeredWithin_StdlibRouter_handleAll {H W : Type} (calls : List (Registration H)) :
    registeredWithin (registeredPaths calls)
      ((StdlibRouter : stdlibRouter H W).handleAll calls).mux := by
  apply registeredWithin_handleAll
  · exact registeredWithin_NewServeMux _
  · intro c hc p hp
    unfold registeredPaths
    exact List.mem_flatMap.2 ⟨c, hc, hp⟩

theorem ne_of_patternMatches_false (p name : String) (h : patternMatches p name = false) :
    p ≠ name := by
  intro e
  unfold patternMatches at h
  rw [e] at h
  simp at h

theorem lookup_none_of_registeredWithin {H W : Type} (pats : List String) (mux : ServeMux H W)
    (hin : registeredWithin pats mux) (name : String) (hne : ∀ p ∈ pats, p ≠ name) :
    mux.m.lookup name = none :=
  lookup_none_of_not_mem_keys name mux.m (fun kv hkv => hne kv.1 (hin.1 kv hkv))

theorem matchPath_none_of_registeredWithin {H W : Type} (pats : List String)
    (mux : ServeMux H W) (hin : registeredWithin pats mux) (name : String)
    (hun : ∀ p ∈ pats, patternMatches p name = false) :
    mux.matchPath name = none := by
  unfold ServeMux.matchPath
  rw [lookup_none_of_registeredWithin pats mux hin name
    (fun p hp => ne_of_patternMatches_false p name (hun p hp))]
  have hfind : mux.es.find? (fun e => HasPrefix name e.pattern) = none := by
    rw [List.find?_eq_none]
    intro e he
    obtain ⟨hp, hl⟩ := hin.2 e he
    have := hun e.pattern hp
    unfold patternMatches at this
    rw [hl] at this
    simp at this
    simp [this.2]
  rw [hfind]

theorem shouldRedirect_false_of_lookup_none {H W : Type} (mux : ServeMux H W)
    (host path : String) (h1 : mux.m.lookup (path ++ "/") = none)
    (h2 : mux.m.lookup (host ++ path ++ "/") = none) :
    mux.shouldRedirectRLocked host path = false := by
  unfold ServeMux.shouldRedirectRLocked
  simp [h1, h2]

/-- Claim C3 (amended): for every sequence of Handle calls on a router returned by
StdlibRouter() and every request that no registered path matches (a registered path matches
a name equal to it and, when it ends in "/", every name that starts with it; the names the
mux looks up are the request's path and the request's host, r.Host without its port unless
the method is CONNECT, followed by its path), ServeHTTP
calls no registered handler, whatever the request's method is: it writes the not-found
response, a 400 (request URI "*") or a 301 redirect.  It is the not-found response when the
mux looks the request up under its path (request URI not "*", path in canonical form or
method CONNECT) and no registered path is the request's path followed by "/", alone or
after the host the mux redirects with (r.URL.Host for a CONNECT request, r.Host without its
port for any other). -/
theorem unmatched_request_gets_no_handler {H W : Type} (calls : List (Registration H))
    (w : W) (r : Request)
    (hun : ∀ p ∈ registeredPaths calls,
      patternMatches p r.Path = false ∧ patternMatches p (lookupHost r ++ r.Path) = false) :
    (((StdlibRouter : stdlibRouter H W).handleAll calls).ServeHTTP w r = [Event.notFound w r] ∨
      ((StdlibRouter : stdlibRouter H W).handleAll calls).ServeHTTP w r = [Event.badRequest w r] ∨
      ∃ t, ((StdlibRouter : stdlibRouter H W).handleAll calls).ServeHTTP w r =
        [Event.redirect w r t 301]) ∧
    (∀ e ∈ ((StdlibRouter : stdlibRouter H W).handleAll calls).ServeHTTP w r,
      e.isServe = false) ∧
    (direct r = true →
      (∀ p ∈ registeredPaths calls,
        p ≠ r.Path ++ "/" ∧ p ≠ redirectHost r ++ r.Path ++ "/") →
      ((StdlibRouter : stdlibRouter H W).handleAll calls).ServeHTTP w r =
        [Event.notFound w r]) := by
  have hin := registeredWithin_StdlibRouter_handleAll (W := W) calls
  have hhandler : (((StdlibRouter : stdlibRouter H W).handleAll calls).mux.handler
      (lookupHost r) r.Path).1 w r = [Event.notFound w r] := by
    rw [handler_of_no_match _ _ _
      (matchPath_none_of_registeredWithin _ _ hin _ (fun p hp => (hun p hp).2))
      (matchPath_none_of_registeredWithin _ _ hin _ (fun p hp => (hun p hp).1))]
    rfl
  have hcases : ((StdlibRouter : stdlibRouter H W).handleAll calls).ServeHTTP w r =
        [Event.notFound w r] ∨
      ((StdlibRouter : stdlibRouter H W).handleAll calls).ServeHTTP w r =
        [Event.badRequest w r] ∨
      ∃ t, ((StdlibRouter : stdlibRouter H W).handleAll calls).ServeHTTP w r =
        [Event.redirect w r t 301] := by
    unfold stdlibRouter.ServeHTTP
    rcases ServeHTTP_cases ((StdlibRouter : stdlibRouter H W).handleAll calls).mux w r with
      h | h | h
    · exact Or.inr (Or.inl h)
    · exact Or.inr (Or.inr h)
    · left; rw [h]; exact hhandler
  refine ⟨hcases, no_serve_of_cases _ w r hcases, ?_⟩
  intro hd hslash
  unfold stdlibRouter.ServeHTTP
  rw [ServeHTTP_direct _ w r hd]
  · exact hhandler
  · apply shouldRedirect_false_of_lookup_none
    · exact lookup_none_of_registeredWithin _ _ hin _ (fun p hp => (hslash p hp).1)
    · exact lookup_none_of_registeredWithin _ _ hin _ (fun p hp => (hslash p hp).2)

/-- Scenario A of the specification: after registering GET for /x on a fresh router, GET /y
gets the not-found response. -/
theorem unmatched_request_gets_no_handler_witness :
    (((StdlibRouter : stdlibRouter String Unit).handleAll
        [{ methods := ["GET"], paths := ["/x"], h := "H1" }]).ServeHTTP ()
          (exampleRequest "GET" "/y") = [Event.notFound () (exampleRequest "GET" "/y")] ∨
      ((StdlibRouter : stdlibRouter String Unit).handleAll
        [{ methods := ["GET"], paths := ["/x"], h := "H1" }]).ServeHTTP ()
          (exampleRequest "GET" "/y") = [Event.badRequest () (exampleRequest "GET" "/y")] ∨
      ∃ t, ((StdlibRouter : stdlibRouter String Unit).handleAll
        [{ methods := ["GET"], paths := ["/x"], h := "H1" }]).ServeHTTP ()
          (exampleRequest "GET" "/y") = [Event.redirect () (exampleRequest "GET" "/y") t 301]) ∧
    (∀ e ∈ ((StdlibRouter : stdlibRouter String Unit).handleAll
        [{ methods := ["GET"], paths := ["/x"], h := "H1" }]).ServeHTTP ()
          (exampleRequest "GET" "/y"), e.isServe = false) ∧
    (direct (exampleRequest "GET" "/y") = true →
      (∀ p ∈ registeredPaths [({ methods := ["GET"], paths := ["/x"], h := "H1" } :
          Registration String)],
        p ≠ (exampleRequest "GET" "/y").Path ++ "/" ∧
        p ≠ redirectHost (exampleRequest "GET" "/y") ++ (exampleRequest "GET" "/y").Path ++ "/") →
      ((StdlibRouter : stdlibRouter String Unit).handleAll
        [{ methods := ["GET"], paths := ["/x"], h := "H1" }]).ServeHTTP ()
          (exampleRequest "GET" "/y") = [Event.notFound () (exampleRequest "GET" "/y")]) :=
  unmatched_request_gets_no_handler [{ methods := ["GET"], paths := ["/x"], h := "H1" }] ()
    (exampleRequest "GET" "/y") (by decide)

/-- Claim C3 fails as stated: after Handle([GET], [/], H1) on a fresh router the request
GET /y, whose path is in no registered path list, is served by H1. -/
theorem subtree_pattern_serves_unregistered_path :
    (exampleRequest "GET" "/y").Path ∉
      registeredPaths [({ methods := ["GET"], paths := ["/"], h := "H1" } : Registration String)] ∧
    ((StdlibRouter : stdlibRouter String Unit).handleAll
      [{ methods := ["GET"], paths := ["/"], h := "H1" }]).ServeHTTP ()
        (exampleRequest "GET" "/y") = [Event.serve "H1" () (exampleRequest "GET" "/y")] := by
  decide

/-- Claim C8 (amended): the stdlib router answers a disallowed method as the mux answers a
request it matches to nothing.  For every router state, when Handle(M, P, h) returns without
a panic and the router then holds no host-specific pattern, a request to a path of P with a
method outside M and a request with the same method that the mux matches to no pattern and
does not redirect to its path followed by "/", both looked up under their path (request URI
not "*", path in canonical form or method CONNECT), get the same response, the one of
http.NotFound: status 404, never 405. -/
theorem disallowed_method_same_as_unmatched {H W : Type} (g : stdlibRouter H W)
    (M P : List String) (h : H) (w : W) (r1 r2 : Request)
    (hok : (g.Handle M P h).2 = none)
    (hhosts : (g.Handle M P h).1.mux.hosts = false)
    (hp : r1.Path ∈ P) (hm : r1.Method ∉ M) (hd1 : direct r1 = true)
    (hsame : r2.Method = r1.Method) (hd2 : direct r2 = true)
    (hun : (g.Handle M P h).1.mux.matchPath r2.Path = none)
    (hslash : (g.Handle M P h).1.mux.shouldRedirectRLocked (redirectHost r2) r2.Path = false) :
    (g.Handle M P h).1.ServeHTTP w r1 = http.NotFound w r1 ∧
    (g.Handle M P h).1.ServeHTTP w r2 = http.NotFound w r2 ∧
    ((g.Handle M P h).1.ServeHTTP w r1).map Event.status = [some 404] ∧
    ((g.Handle M P h).1.ServeHTTP w r2).map Event.status = [some 404] ∧
    r2.Method ∉ M := by
  have h1 : (g.Handle M P h).1.ServeHTTP w r1 = http.NotFound w r1 := by
    unfold stdlibRouter.ServeHTTP
    rw [ServeHTTP_of_lookup _ w r1 _ hhosts (Handle_registered g M P h hok r1.Path hp) hd1]
    exact dispatch_of_not_mem M h w r1 hm
  have h2 : (g.Handle M P h).1.ServeHTTP w r2 = http.NotFound w r2 := by
    unfold stdlibRouter.ServeHTTP
    rw [ServeHTTP_direct _ w r2 hd2 hslash]
    unfold ServeMux.handler
    rw [hhosts, hun]
    rfl
  refine ⟨h1, h2, ?_, ?_, ?_⟩
  · rw [h1]; rfl
  · rw [h2]; rfl
  · rw [hsame]; exact hm

/-- After registering GET for /x on a fresh router, POST /x and POST /y get the same
not-found response. -/
theorem disallowed_method_same_as_unmatched_witness :
    ((StdlibRouter : stdlibRouter String Unit).Handle ["GET"] ["/x"] "H1").1.ServeHTTP ()
        (exampleRequest "POST" "/x") = http.NotFound () (exampleRequest "POST" "/x") ∧
    ((StdlibRouter : stdlibRouter String Unit).Handle ["GET"] ["/x"] "H1").1.ServeHTTP ()
        (exampleRequest "POST" "/y") = http.NotFound () (exampleRequest "POST" "/y") ∧
    (((StdlibRouter : stdlibRouter String Unit).Handle ["GET"] ["/x"] "H1").1.ServeHTTP ()
        (exampleRequest "POST" "/x")).map Event.status = [some 404] ∧
    (((StdlibRouter : stdlibRouter String Unit).Handle ["GET"] ["/x"] "H1").1.ServeHTTP ()
        (exampleRequest "POST" "/y")).map Event.status = [some 404] ∧
    (exampleRequest "POST" "/y").Method ∉ ["GET"] :=
  disallowed_method_same_as_unmatched StdlibRouter ["GET"] ["/x"] "H1" ()
    (exampleRequest "POST" "/x") (exampleRequest "POST" "/y")
    (by decide) (by decide) (by decide) (by decide) (by decide) (by decide) (by decide)
    (by rfl) (by decide)

/-- Claim C8 fails as stated: after Handle([GET], [/], H0) and Handle([POST], [/x], H1) the
request GET /x, to a registered path with a method outside its method set, gets the
not-found response, and GET /y, to a path that is not registered, is served by H0. -/
theorem disallowed_method_differs_from_unregistered_path :
    (((StdlibRouter : stdlibRouter String Unit).Handle ["GET"] ["/"] "H0").1.Handle
        ["POST"] ["/x"] "H1").2 = none ∧
    (exampleRequest "GET" "/y").Path ∉ ["/", "/x"] ∧
    (((StdlibRouter : stdlibRouter String Unit).Handle ["GET"] ["/"] "H0").1.Handle
        ["POST"] ["/x"] "H1").1.ServeHTTP () (exampleRequest "GET" "/x") =
      [Event.notFound () (exampleRequest "GET" "/x")] ∧
    (((StdlibRouter : stdlibRouter String Unit).Handle ["GET"] ["/"] "H0").1.Handle
        ["POST"] ["/x"] "H1").1.ServeHTTP () (exampleRequest "GET" "/y") =
      [Event.serve "H0" () (exampleRequest "GET" "/y")] := by
  decide

theorem handler_of_unmatched {H W : Type} (g : stdlibRouter H W) (r : Request)
    (hun : g.unmatched r = true) :
    g.mux.handler (lookupHost r) r.Path = (http.NotFoundHandler, "") := by
  unfold stdlibRouter.unmatched at hun
  rw [Bool.and_eq_true, Bool.or_eq_true, Option.isNone_iff_eq_none, Option.isNone_iff_eq_none]
    at hun
  obtain ⟨h1, h2⟩ := hun
  unfold ServeMux.handler
  rcases h2 with h2 | h2
  · have : g.mux.hosts = false := by simpa using h2
    rw [this, h1]
    rfl
  · rw [h2, h1]
    cases g.mux.hosts <;> rfl

/-- Claim C5: SetNotFoundHandler on the stdlib router is a no-op.  For every router state,
handler h and request, the router after SetNotFoundHandler(h) is the router before,
ServeHTTP gives the same outcome before and after, and a request that the mux matches to no
pattern calls no handler, so h is never called for an unmatched path. -/
theorem SetNotFoundHandler_is_noop {H W : Type} (g : stdlibRouter H W) (h : H) :
    g.SetNotFoundHandler h = g ∧
    (∀ (w : W) (r : Request), (g.SetNotFoundHandler h).ServeHTTP w r = g.ServeHTTP w r) ∧
    (∀ (w : W) (r : Request), g.unmatched r = true →
      (∀ e ∈ (g.SetNotFoundHandler h).ServeHTTP w r, e.isServe = false) ∧
      ∀ (w1 : W) (r1 : Request), Event.serve h w1 r1 ∉ (g.SetNotFoundHandler h).ServeHTTP w r) := by
  refine ⟨rfl, fun _ _ => rfl, ?_⟩
  intro w r hun
  have hno : ∀ e ∈ (g.SetNotFoundHandler h).ServeHTTP w r, e.isServe = false := by
    apply no_serve_of_cases _ w r
    show g.mux.ServeHTTP w r = _ ∨ _
    rcases ServeHTTP_cases g.mux w r with h1 | h1 | h1
    · exact Or.inr (Or.inl h1)
    · exact Or.inr (Or.inr h1)
    · left
      rw [h1, handler_of_unmatched g r hun]
      rfl
  refine ⟨hno, ?_⟩
  intro w1 r1 hmem
  have := hno _ hmem
  simp [Event.isServe] at this

/-- After SetNotFoundHandler(NF) on a router that serves GET /x, the unmatched request GET /y
calls no handler, so not NF. -/
theorem SetNotFoundHandler_is_noop_witness :
    (∀ e ∈ (((StdlibRouter : stdlibRouter String Unit).Handle ["GET"] ["/x"] "H1").1.SetNotFoundHandler
        "NF").ServeHTTP () (exampleRequest "GET" "/y"), e.isServe = false) ∧
    ∀ (w1 : Unit) (r1 : Request), Event.serve "NF" w1 r1 ∉
      (((StdlibRouter : stdlibRouter String Unit).Handle ["GET"] ["/x"] "H1").1.SetNotFoundHandler
        "NF").ServeHTTP () (exampleRequest "GET" "/y") :=
  (SetNotFoundHandler_is_noop ((StdlibRouter : stdlibRouter String Unit).Handle
    ["GET"] ["/x"] "H1").1 "NF").2.2 () (exampleRequest "GET" "/y") (by decide)

theorem applyOptions_eq_foldl {H W : Type} (opts : List (RouterOption H W)) :
    ∀ r : Router H W, applyOptions r opts = opts.foldl (fun r1 opt => opt r1) r := by
  induction opts with
  | nil => intro r; rfl
  | cons o rest ih => intro r; exact ih (o r)

/-- Claim C6: for every server s, router r and option list [o1, ..., on], Server.Router(r,
o1, ..., on) installs as the server's router the left fold on(...(o2(o1(r)))...), each option
receiving the router returned by the previous one, and returns the server s with nothing
else changed; with no options the installed router is r itself. -/
theorem Server_Router_installs_fold {H W F : Type} (s : Server H W F) (r : Router H W)
    (opts : List (RouterOption H W)) :
    (s.Router r opts).mux = some (opts.foldl (fun r1 opt => opt r1) r) ∧
    (s.Router r opts).fields = s.fields ∧
    (s.Router r []).mux = some r ∧
    (∀ (o : RouterOption H W), (s.Router r (opts ++ [o])).mux =
      some (o (opts.foldl (fun r1 opt => opt r1) r))) := by
  refine ⟨?_, rfl, rfl, ?_⟩
  · show some (applyOptions r opts) = _
    rw [applyOptions_eq_foldl]
  · intro o
    show some (applyOptions r (opts ++ [o])) = _
    rw [applyOptions_eq_foldl, List.foldl_append]
    rfl

theorem dispatch_eq_dispatchSpec {H W : Type} (M : List String) (h : H) :
    (stdlibRouter.dispatch (M.foldl MethodSet.set []) h : HandlerFunc H W) =
      dispatchSpec M h := by
  funext w r
  by_cases hm : r.Method ∈ M
  · rw [dispatch_of_mem M h w r hm]
    unfold dispatchSpec
    rw [if_pos hm]
  · rw [dispatch_of_not_mem M h w r hm]
    unfold dispatchSpec
    rw [if_neg hm]

theorem Handle_eq_registerOneByOne {H W : Type} (M : List String) (h : H) :
    ∀ (ps : List String) (g : stdlibRouter H W),
      g.Handle M ps h = registerOneByOne M h g ps := by
  intro ps
  induction ps with
  | nil => intro g; rfl
  | cons p rest ih =>
    intro g
    have hrest : ∀ g1 : stdlibRouter H W,
        stdlibRouter.handlePaths (M.foldl MethodSet.set []) h g1 rest =
          registerOneByOne M h g1 rest := ih
    show stdlibRouter.handlePaths (M.foldl MethodSet.set []) h g (p :: rest) = _
    unfold stdlibRouter.handlePaths registerOneByOne
    rw [dispatch_eq_dispatchSpec]
    cases g.mux.HandleFunc p (dispatchSpec M h) with
    | error msg => rfl
    | ok mux1 => exact hrest { mux := mux1 }

theorem Handle_cons {H W : Type} (M : List String) (h : H) (p : String)
    (rest : List String) (g : stdlibRouter H W) :
    g.Handle M (p :: rest) h = andThen (g.Handle M [p] h) (fun g1 => g1.Handle M rest h) := by
  rw [Handle_eq_registerOneByOne, Handle_eq_registerOneByOne M h [p]]
  unfold registerOneByOne
  cases g.mux.HandleFunc p (dispatchSpec M h) with
  | error msg => rfl
  | ok mux1 =>
    show registerOneByOne M h { mux := mux1 } rest = _
    rw [← Handle_eq_registerOneByOne]
    rfl

theorem foldl_andThen_Handle {H W : Type} (M : List String) (h : H) :
    ∀ (ps : List String) (acc : stdlibRouter H W × Option String),
      ps.foldl (fun a p => andThen a (fun g1 => g1.Handle M [p] h)) acc =
        andThen acc (fun g1 => g1.Handle M ps h) := by
  intro ps
  induction ps with
  | nil =>
    intro acc
    obtain ⟨g1, _ | msg⟩ := acc <;> rfl
  | cons p rest ih =>
    intro acc
    rw [List.foldl_cons, ih]
    obtain ⟨g1, _ | msg⟩ := acc
    · exact (Handle_cons M h p rest g1).symm
    · rfl

/-- Claim C9: Handle registers the paths one by one, independently and in the caller's order,
each with the same method set and handler.  For every router state, method list M, handler h
and path list [p1, ..., pn], Handle(M, [p1, ..., pn], h) gives the result (the router, and
the panic if one ends it) of registering with the mux, for each path in order, the dispatch
closure of the specification over M and h; that is also the result of the sequence
Handle(M, [p1], h); ...; Handle(M, [pn], h), hence the same dispatch outcome for every
request; and Handle with an empty path list leaves the router unchanged. -/
theorem Handle_registers_one_path_at_a_time {H W : Type} (M : List String) (h : H)
    (ps : List String) (g : stdlibRouter H W) :
    g.Handle M ps h = registerOneByOne M h g ps ∧
    g.Handle M ps h =
      ps.foldl (fun a p => andThen a (fun g1 => g1.Handle M [p] h)) (g, none) ∧
    (∀ (w : W) (r : Request),
      (g.Handle M ps h).1.ServeHTTP w r =
        (ps.foldl (fun a p => andThen a (fun g1 => g1.Handle M [p] h)) (g, none)).1.ServeHTTP
          w r) ∧
    g.Handle M [] h = (g, none) := by
  have hseq : g.Handle M ps h =
      ps.foldl (fun a p => andThen a (fun g1 => g1.Handle M [p] h)) (g, none) := by
    rw [foldl_andThen_Handle]
    rfl
  refine ⟨Handle_eq_registerOneByOne M h ps g, hseq, ?_, rfl⟩
  intro w r
  rw [← hseq]

/-- Claim C10: for every handler h and every Router r, the option NotFoundHandler(h) applied
to r returns r itself, the same implementation with the same methods, after exactly one call
r.SetNotFoundHandler(h); so when r is the stdlib router the option returns r unchanged, and
Server.Router(r, NotFoundHandler(h)) installs the router, with the state and the dispatch
behaviour, that Server.Router(r) installs. -/
theorem NotFoundHandler_calls_SetNotFoundHandler {H W F : Type} (h : H) (r : Router H W)
    (g : stdlibRouter H W) (s : Server H W F) :
    NotFoundHandler h r =
      { State := r.State
        self := r.SetNotFoundHandler r.self h
        Handle := r.Handle
        SetNotFoundHandler := r.SetNotFoundHandler
        ServeHTTP := r.ServeHTTP } ∧
    NotFoundHandler h g.toRouter = g.toRouter ∧
    s.Router g.toRouter [NotFoundHandler h] = s.Router g.toRouter [] ∧
    (∀ (w : W) (req : Request),
      (applyOptions g.toRouter [NotFoundHandler h]).callServeHTTP w req = g.ServeHTTP w req) :=
  ⟨rfl, rfl, rfl, fun _ _ => rfl⟩

end kitty
